import Mathlib

/-!
Verification of the device/process session manager of the SimBuild
extension: target catalog, build session, device session and log stream
session. Definitions are shallow embeddings of the TypeScript sources
(devices/manager.ts, simulator/list.ts, xcode/build.ts); subprocess and
filesystem outcomes are passed in explicitly as values.
-/

/-! ## Character and string utilities

The sources manipulate subprocess output as JavaScript strings. We model
the relevant operations (split on newline, trim, prefix and substring
tests, digit runs) executably over `List Char`.
-/

/-- The whitespace characters relevant to the modelled output
(JavaScript regex class backslash-s restricted to the ASCII range). -/
def isWsChar (c : Char) : Bool :=
  c = ' ' || c = '\t' || c = '\n' || c = '\r'

/-- Split on newline characters, like the JavaScript idiom of calling
split with a newline separator: a trailing newline yields a final empty
piece. -/
def splitNl : List Char → List (List Char)
  | [] => [[]]
  | c :: rest =>
    let r := splitNl rest
    if c = '\n' then [] :: r
    else
      match r with
      | [] => [[c]]
      | h :: t => (c :: h) :: t

/-- Remove leading and trailing whitespace, like the JavaScript trim. -/
def trimChars (l : List Char) : List Char :=
  ((l.dropWhile isWsChar).reverse.dropWhile isWsChar).reverse

/-- Substring containment, like the JavaScript includes test. -/
def containsSub (pat : List Char) : List Char → Bool
  | [] => pat.isEmpty
  | c :: rest => pat.isPrefixOf (c :: rest) || containsSub pat rest

/-- Maximal leading run of decimal digits together with the remainder. -/
def digitRun (l : List Char) : List Char × List Char :=
  (l.takeWhile Char.isDigit, l.dropWhile Char.isDigit)

/-- Numeric value of a digit run, like parseInt on a digit string. -/
def digitsToNat (l : List Char) : Nat :=
  l.foldl (fun n c => n * 10 + (c.toNat - '0'.toNat)) 0

/-- Lexicographic comparison on character lists (code-point order); the
model of the locale-aware name comparison used by the simulator sort. -/
def charListLt : List Char → List Char → Bool
  | [], [] => false
  | [], _ :: _ => true
  | _ :: _, [] => false
  | a :: as, b :: bs =>
    if a < b then true else if b < a then false else charListLt as bs

/-- Three-way string comparison returning an integer sign, modelling
localeCompare in the sources. -/
def localeCompare (a b : String) : Int :=
  if charListLt a.toList b.toList then -1
  else if charListLt b.toList a.toList then 1
  else 0

/-- Match of the runtime-version pattern (the regex iOS sep1 digits sep2
digits) at the head of the input; returns the two captured digit runs. -/
def matchIOSVersionAt (sep1 sep2 : Char) : List Char → Option (List Char × List Char)
  | 'i' :: 'O' :: 'S' :: c :: rest =>
    if c = sep1 then
      let (maj, r1) := digitRun rest
      if maj = [] then none
      else
        match r1 with
        | c2 :: r2 =>
          if c2 = sep2 then
            let (mino, _) := digitRun r2
            if mino = [] then none else some (maj, mino)
          else none
        | [] => none
    else none
  | _ => none

/-- First match of the runtime-version pattern anywhere in the input,
scanning left to right as the regex engine does. -/
def findIOSVersion (sep1 sep2 : Char) : List Char → Option (List Char × List Char)
  | [] => none
  | c :: rest =>
    match matchIOSVersionAt sep1 sep2 (c :: rest) with
    | some v => some v
    | none => findIOSVersion sep1 sep2 rest

namespace DeviceManager

/-! ## Target catalog (devices/manager.ts)

`listAllDevices` concatenates the emulated targets reported by the
simulator backend with the physical targets reported by the modern
device-control backend, falling back to the legacy text-based tool.
Backend outcomes (process errors or malformed JSON both surface as
thrown exceptions in the source) are modelled as `Except` inputs.
-/

inductive DeviceType
  | simulator
  | device
deriving DecidableEq

/-- A raw simulator record as parsed from the simctl JSON output. -/
structure SimctlDevice where
  udid : String
  name : String
  state : String
  isAvailable : Bool
deriving DecidableEq

/-- The simctl JSON output: runtime identifiers mapped to device lists,
in enumeration order. -/
structure SimctlOutput where
  devices : List (String × List SimctlDevice)
deriving DecidableEq

/-- A unified catalog entry. -/
structure Device where
  udid : String
  name : String
  type : DeviceType
  state : String
  platform : String
  osVersion : String
  isAvailable : Bool
deriving DecidableEq

/-- OS version derived from a runtime identifier, via the regex that
captures major and minor components separated by dashes. -/
def runtimeOsVersion (runtime : String) : String :=
  match findIOSVersion '-' '-' runtime.toList with
  | some (maj, mino) => String.mk maj ++ "." ++ String.mk mino
  | none => "Unknown"

/-- The simulator half of the catalog on a successful backend query:
available devices of every runtime, in enumeration order, no sorting. -/
def listSimulatorsOk (data : SimctlOutput) : List Device :=
  data.devices.flatMap fun rd =>
    (rd.2.filter (·.isAvailable)).map fun d =>
      { udid := d.udid
        name := d.name
        type := .simulator
        state := d.state
        platform := "iOS Simulator"
        osVersion := runtimeOsVersion rd.1
        isAvailable := d.isAvailable }

/-- The simulator half of the catalog; a failed or malformed backend
query degrades to the empty list. -/
def listSimulators (res : Except Unit SimctlOutput) : List Device :=
  match res with
  | .ok data => listSimulatorsOk data
  | .error _ => []

/-- A device record from the modern device-control JSON output. -/
structure DctlDevice where
  identifier : String
  transportType : Option String
  hwUdid : Option String
  deviceName : Option String
  osVersionNumber : Option String
deriving DecidableEq

/-- The modern device-control JSON output. -/
structure DctlOutput where
  devices : List DctlDevice
deriving DecidableEq

/-- JavaScript or-else on an optional string: empty strings are falsy
and also fall through to the default. -/
def jsOrStr (a : Option String) (b : String) : String :=
  match a with
  | some s => if s = "" then b else s
  | none => b

/-- Physical targets from the modern device-control backend: wired or
network transports only; failure degrades to the empty list. -/
def listDevicesWithDevicectl (res : Except Unit DctlOutput) : List Device :=
  match res with
  | .error _ => []
  | .ok data =>
    (data.devices.filter fun d =>
        d.transportType = some "wired" || d.transportType = some "network").map fun d =>
      { udid := jsOrStr d.hwUdid d.identifier
        name := jsOrStr d.deviceName "Unknown Device"
        type := .device
        state := if d.transportType = some "wired" then "Connected" else "Network"
        platform := "iOS"
        osVersion := jsOrStr d.osVersionNumber "Unknown"
        isAvailable := true }

/-- A character allowed in the identifier group of the legacy pattern
(hex digits in either case, decimal digits and dashes). -/
def isUdidChar (c : Char) : Bool :=
  c.isDigit || c = '-' || ('A' ≤ c && c ≤ 'F') || ('a' ≤ c && c ≤ 'f')

/-- Consume at least one whitespace character. -/
def dropWs1 (l : List Char) : Option (List Char) :=
  match l with
  | c :: rest => if isWsChar c then some (rest.dropWhile isWsChar) else none
  | [] => none

/-- Consume a version group: digits dot digits with an optional third
dot-digits component, which is taken exactly when present (the closing
parenthesis is checked by the caller). Returns the version characters
and the remainder. -/
def matchVersionGroup (l : List Char) : Option (List Char × List Char) :=
  let (d1, r1) := digitRun l
  if d1 = [] then none
  else
    match r1 with
    | '.' :: r2 =>
      let (d2, r3) := digitRun r2
      if d2 = [] then none
      else
        match r3 with
        | '.' :: r4 =>
          let (d3, r5) := digitRun r4
          if d3 = [] then none
          else some (d1 ++ '.' :: d2 ++ '.' :: d3, r5)
        | _ => some (d1 ++ '.' :: d2, r3)
    | _ => none

/-- Consume the tail of the legacy device line after the name: mandatory
whitespace, a parenthesised version, whitespace, a parenthesised
identifier, then end of line. Returns version and identifier. -/
def matchXctraceTail (l : List Char) : Option (List Char × List Char) :=
  match dropWs1 l with
  | none => none
  | some l1 =>
    match l1 with
    | '(' :: l2 =>
      match matchVersionGroup l2 with
      | none => none
      | some (ver, l3) =>
        match l3 with
        | ')' :: l4 =>
          match dropWs1 l4 with
          | none => none
          | some l5 =>
            match l5 with
            | '(' :: l6 =>
              let udid := l6.takeWhile isUdidChar
              if udid = [] then none
              else
                match l6.dropWhile isUdidChar with
                | [')'] => some (ver, udid)
                | _ => none
            | _ => none
        | _ => none
    | _ => none

/-- Split a legacy device line into name, version and identifier,
trying the shortest possible name first as the lazy name group does. -/
def xctraceSplit (nameRev : List Char) : List Char → Option (List Char × List Char × List Char)
  | [] => none
  | c :: rest =>
    match matchXctraceTail rest with
    | some (ver, udid) => some ((c :: nameRev).reverse, ver, udid)
    | none => xctraceSplit (c :: nameRev) rest

/-- Parse one line of the legacy tool output; lines mentioning the
emulated-device keyword (case-insensitively) are excluded. -/
def parseXctraceLine (line : List Char) : Option Device :=
  match xctraceSplit [] line with
  | none => none
  | some (nm, ver, udid) =>
    if containsSub "simulator".toList (line.map Char.toLower) then none
    else
      some
        { udid := String.mk udid
          name := String.mk (trimChars nm)
          type := .device
          state := "Connected"
          platform := "iOS"
          osVersion := String.mk ver
          isAvailable := true }

/-- Physical targets from the legacy text-based tool; failure degrades
to the empty list. -/
def listDevicesWithInstruments (res : Except Unit String) : List Device :=
  match res with
  | .error _ => []
  | .ok stdout => (splitNl stdout.toList).filterMap parseXctraceLine

/-- Physical targets: the modern backend first, the legacy tool only
when the modern one reports nothing. -/
def listRealDevices (dctl : Except Unit DctlOutput) (xct : Except Unit String) : List Device :=
  let ds := listDevicesWithDevicectl dctl
  if ds.length > 0 then ds else listDevicesWithInstruments xct

/-- The outcomes of the three backend queries a catalog call makes. -/
structure CatalogInputs where
  simctl : Except Unit SimctlOutput
  devicectl : Except Unit DctlOutput
  xctrace : Except Unit String

/-- The full catalog: emulated targets followed by physical targets. -/
def listAllDevices (inp : CatalogInputs) : List Device :=
  listSimulators inp.simctl ++ listRealDevices inp.devicectl inp.xctrace

end DeviceManager

namespace SimulatorList

/-! ## Standalone simulator catalog (simulator/list.ts)

This module returns `Simulator` records with a human-readable runtime
name and then sorts them: booted entries first, the rest by platform
version descending (numeric major, then minor) and by name ascending.
The JavaScript array sort is stable, modelled by insertion sort.
-/

/-- A simulator record of the standalone catalog. -/
structure Simulator where
  udid : String
  name : String
  state : String
  runtime : String
  isAvailable : Bool
deriving DecidableEq

/-- Human-readable runtime name derived from a runtime identifier; the
raw identifier is kept when the pattern does not match. -/
def runtimeName (runtime : String) : String :=
  match findIOSVersion '-' '-' runtime.toList with
  | some (maj, mino) => "iOS " ++ String.mk maj ++ "." ++ String.mk mino
  | none => runtime

/-- The sort comparator: booted entries first; otherwise version
descending via the version pattern on the runtime name, falling back to
the locale name comparison when either runtime fails to parse or the
versions tie. -/
def compareSimulators (a b : Simulator) : Int :=
  if a.state = "Booted" ∧ b.state ≠ "Booted" then -1
  else if a.state ≠ "Booted" ∧ b.state = "Booted" then 1
  else
    match findIOSVersion ' ' '.' a.runtime.toList, findIOSVersion ' ' '.' b.runtime.toList with
    | some va, some vb =>
      let majorDiff : Int := (digitsToNat vb.1 : Int) - (digitsToNat va.1 : Int)
      if majorDiff ≠ 0 then majorDiff
      else
        let minorDiff : Int := (digitsToNat vb.2 : Int) - (digitsToNat va.2 : Int)
        if minorDiff ≠ 0 then minorDiff
        else localeCompare a.name b.name
    | _, _ => localeCompare a.name b.name

/-- The non-strict order induced by the comparator. -/
def simLE (a b : Simulator) : Prop := compareSimulators a b ≤ 0

instance : DecidableRel simLE := fun _ _ => Int.decLe _ _

/-- The catalog sort: a stable sort under the comparator order. -/
def sortSimulators (l : List Simulator) : List Simulator :=
  List.insertionSort simLE l

/-- The standalone catalog on a successful backend query: available
devices with readable runtime names, sorted. -/
def listSimulatorsOk (data : DeviceManager.SimctlOutput) : List Simulator :=
  let sims := data.devices.flatMap fun rd =>
    (rd.2.filter (·.isAvailable)).map fun d =>
      { udid := d.udid
        name := d.name
        state := d.state
        runtime := runtimeName rd.1
        isAvailable := d.isAvailable }
  sortSimulators sims

/-- The standalone catalog rethrows on a failed backend query. -/
def listSimulators (res : Except Unit DeviceManager.SimctlOutput) : Except String (List Simulator) :=
  match res with
  | .ok data => .ok (listSimulatorsOk data)
  | .error _ => .error "Failed to list simulators. Make sure Xcode is installed."

end SimulatorList

namespace XcodeBuild

/-! ## Build session (xcode/build.ts)

The build subprocess is modelled by its observable inputs: the exit
code, the accumulated standard output and error text, and the contents
of the default derived-data root as a fallible directory listing.
-/

inductive ProjectType
  | workspace
  | project
deriving DecidableEq

structure XcodeProject where
  path : String
  name : String
  type : ProjectType
deriving DecidableEq

structure BuildOptions where
  project : XcodeProject
  scheme : String
  deviceType : DeviceManager.DeviceType
  derivedDataPath : Option String
  clean : Bool
deriving DecidableEq

structure BuildResult where
  success : Bool
  appPath : Option String
  duration : Nat
  error : Option String
deriving DecidableEq

/-- The filesystem facts the close handler consults: the home directory
and the listing of the default derived-data root (a thrown readdir is
the error case). -/
structure FsEnv where
  home : String
  derivedDataDirs : Except Unit (List String)

/-- The product directory name chosen from the target kind. -/
def productDir (dt : DeviceManager.DeviceType) : String :=
  match dt with
  | .simulator => "Debug-iphonesimulator"
  | .device => "Debug-iphoneos"

/-- The phase keywords scanned for at line starts, in the alternation
order of the source regex. -/
def phaseKeywords : List (List Char) :=
  ["Compile".toList, "Link".toList, "Copy".toList, "Process".toList,
   "Sign".toList, "Build".toList, "Analyze".toList, "CodeSign".toList]

/-- The phase keyword matched at the start of one line, if any. -/
def matchPhaseLine (line : List Char) : Option (List Char) :=
  phaseKeywords.find? (fun k => k.isPrefixOf line)

/-- The first line-start phase match in a chunk of output, as the
multiline anchored regex finds it. -/
def firstPhaseMatch (text : List Char) : Option (List Char) :=
  (splitNl text).findSome? matchPhaseLine

/-- Processing of one stdout chunk by the data handler: a notification
fires exactly when the chunk matches a phase different from the last
one seen. Returns the updated last phase and the notifications. -/
def phaseStep (lastPhase : List Char) (chunk : List Char) : List Char × List String :=
  match firstPhaseMatch chunk with
  | some p => if p ≠ lastPhase then (p, [String.mk p ++ "..."]) else (lastPhase, [])
  | none => (lastPhase, [])

/-- Notifications produced over a sequence of stdout chunks. -/
def phaseNotifications (lastPhase : List Char) : List (List Char) → List String
  | [] => []
  | ch :: rest =>
    let s := phaseStep lastPhase ch
    s.2 ++ phaseNotifications s.1 rest

/-- Maximal run of non-whitespace characters. -/
def nonWsRun (l : List Char) : List Char :=
  l.takeWhile (fun c => !isWsChar c)

/-- The literal tail the artifact-path regex requires: a slash, the
product directory, a slash, the scheme and the bundle extension. -/
def appPathSuffix (pd scheme : String) : List Char :=
  ("/" ++ pd ++ "/" ++ scheme ++ ".app").toList

/-- Match of the artifact-path pattern at the current position: a slash
followed by a non-whitespace run of at least one character more than
the required tail, ending in that tail (the terminator class makes the
tail sit at the end of the run). -/
def matchAppPathAt (suffix : List Char) : List Char → Option (List Char)
  | '/' :: rest =>
    let run := nonWsRun rest
    if suffix.length + 1 ≤ run.length ∧ suffix.isSuffixOf run then some ('/' :: run)
    else none
  | _ => none

/-- First match of the artifact-path pattern in the accumulated stdout,
scanning left to right. -/
def findAppPath (suffix : List Char) : List Char → Option (List Char)
  | [] => none
  | c :: rest =>
    match matchAppPathAt suffix (c :: rest) with
    | some m => some m
    | none => findAppPath suffix rest

/-- The default derived-data root beneath the home directory. -/
def defaultDerivedDataRoot (env : FsEnv) : String :=
  env.home ++ "/Library/Developer/Xcode/DerivedData"

/-- Artifact-path resolution on successful exit, in priority order:
the stdout pattern match, then the configured derived-data override,
then a directory of the default root whose name is prefixed by the
scheme or project name; otherwise nothing. -/
def resolveAppPath (opts : BuildOptions) (env : FsEnv) (buildOutput : String) : Option String :=
  let pd := productDir opts.deviceType
  match findAppPath (appPathSuffix pd opts.scheme) buildOutput.toList with
  | some m => some (String.mk m)
  | none =>
    match opts.derivedDataPath with
    | some ddp => some (ddp ++ "/Build/Products/" ++ pd ++ "/" ++ opts.scheme ++ ".app")
    | none =>
      match env.derivedDataDirs with
      | .error _ => none
      | .ok dirs =>
        match dirs.find? (fun d =>
            opts.scheme.toList.isPrefixOf d.toList ||
            opts.project.name.toList.isPrefixOf d.toList) with
        | some projectDir =>
          some (defaultDerivedDataRoot env ++ "/" ++ projectDir ++ "/Build/Products/" ++
            pd ++ "/" ++ opts.scheme ++ ".app")
        | none => none

/-- Match of the diagnostic pattern at the current position: the error
marker followed by at least one character, captured to the end of the
line. -/
def matchErrorAt (l : List Char) : Option (List Char) :=
  if "error: ".toList.isPrefixOf l then
    let msg := (l.drop 7).takeWhile (fun c => c ≠ '\n' ∧ c ≠ '\r')
    if msg = [] then none else some msg
  else none

/-- First match of the diagnostic pattern in the accumulated stderr. -/
def findErrorMessage : List Char → Option (List Char)
  | [] => none
  | c :: rest =>
    match matchErrorAt (c :: rest) with
    | some m => some m
    | none => findErrorMessage rest

/-- The close handler of the build subprocess: on exit code zero a
successful result carrying the resolved artifact path; otherwise a
failure carrying the extracted diagnostic or the generic message. -/
def buildOnClose (opts : BuildOptions) (env : FsEnv) (code : Int)
    (buildOutput errorOutput : String) (duration : Nat) : BuildResult :=
  if code = 0 then
    { success := true
      appPath := resolveAppPath opts env buildOutput
      duration := duration
      error := none }
  else
    { success := false
      appPath := none
      duration := duration
      error := some (match findErrorMessage errorOutput.toList with
        | some m => String.mk m
        | none => "Build failed") }

end XcodeBuild

namespace LogSession

/-! ## Log stream session (devices/manager.ts)

The session keeps a module-level generation counter and two process
handles. Spawned subprocesses are recorded with the generation captured
at spawn time, the identity of the caller whose callbacks they close
over, and the shape of the data handlers attached to them: the
console-launch spawn of an emulated target gets handlers that split
stderr into tagged log lines, every other spawn gets the generic
handlers that pass stderr chunks to the error callback whole.
Asynchronous data arrival is modelled by delivery functions evaluated
against the session state current at arrival time.
-/

inductive LogMode
  | stdout
  | system
  | both
deriving DecidableEq

inductive HandlerKind
  | console
  | generic
deriving DecidableEq

/-- A spawned log subprocess: its identity, the generation captured at
spawn time, the caller whose callbacks it reports to, and the handler
shape attached to it. -/
structure SpawnRec where
  pid : Nat
  gen : Nat
  caller : Nat
  handler : HandlerKind
  mode : LogMode
deriving DecidableEq

/-- The module-level session state: the generation counter, the two
handles, the registry of every spawn made so far and a fresh-pid
counter. -/
structure LogState where
  logProcessId : Nat
  stdoutLogProcess : Option Nat
  logProcess : Option Nat
  spawns : List SpawnRec
  nextPid : Nat
deriving DecidableEq

/-- The state before any stream has been started. -/
def initLogState : LogState :=
  { logProcessId := 0, stdoutLogProcess := none, logProcess := none,
    spawns := [], nextPid := 0 }

/-- The arguments of a stream start that the state machine observes. -/
structure LogStreamOptions where
  deviceType : DeviceManager.DeviceType
  caller : Nat
  mode : LogMode

/-- Stopping the stream: reports whether either handle was live, sends
the termination signal and clears both handles. The generation counter
is left untouched. -/
def stopLogStream (s : LogState) : Bool × LogState :=
  (s.stdoutLogProcess.isSome || s.logProcess.isSome,
   { s with stdoutLogProcess := none, logProcess := none })

/-- Record one spawn and advance the fresh-pid counter. -/
def spawnProc (gen caller : Nat) (h : HandlerKind) (mode : LogMode) (s : LogState) :
    Nat × LogState :=
  (s.nextPid,
   { s with
      nextPid := s.nextPid + 1
      spawns := s.spawns ++ [{ pid := s.nextPid, gen := gen, caller := caller,
                               handler := h, mode := mode }] })

/-- Starting a stream: any existing stream is stopped first, the
generation counter is incremented, and the subprocesses of the
requested mode are spawned with the new generation captured. -/
def startLogStream (opts : LogStreamOptions) (s : LogState) : Bool × LogState :=
  let s0 := (stopLogStream s).2
  let gen := s0.logProcessId + 1
  let s1 := { s0 with logProcessId := gen }
  match opts.deviceType with
  | .simulator =>
    if opts.mode = .stdout then
      let ps := spawnProc gen opts.caller .console opts.mode s1
      (true, { ps.2 with stdoutLogProcess := some ps.1, logProcess := some ps.1 })
    else if opts.mode = .both then
      let ps := spawnProc gen opts.caller .console opts.mode s1
      let s2 := { ps.2 with stdoutLogProcess := some ps.1 }
      let qs := spawnProc gen opts.caller .generic opts.mode s2
      (true, { qs.2 with logProcess := some qs.1 })
    else
      let qs := spawnProc gen opts.caller .generic opts.mode s1
      (true, { qs.2 with logProcess := some qs.1 })
  | .device =>
    let qs := spawnProc gen opts.caller .generic opts.mode s1
    (true, { qs.2 with logProcess := some qs.1 })

/-- Whether a stream is running: either handle is live. -/
def isLogStreamRunning (s : LogState) : Bool :=
  s.logProcess.isSome || s.stdoutLogProcess.isSome

/-- A callback invocation observed by the caller of the stream start:
a log line or an error text, addressed to one caller. -/
inductive LogEvent
  | log (caller : Nat) (line : String)
  | err (caller : Nat) (text : String)
deriving DecidableEq

/-- The lines of a data chunk that survive the blank-line filter; the
forwarded line keeps its original spacing. -/
def nonBlankLines (data : String) : List String :=
  ((splitNl data.toList).filter (fun l => trimChars l ≠ [])).map String.mk

/-- The spawn a pid belongs to. -/
def findSpawn (s : LogState) (pid : Nat) : Option SpawnRec :=
  s.spawns.find? (fun sp => sp.pid = pid)

/-- Arrival of a stdout data chunk from a spawned subprocess, against
the session state current at arrival time: discarded when the captured
generation is no longer current, otherwise forwarded line by line with
blank lines suppressed. -/
def deliverStdout (s : LogState) (pid : Nat) (data : String) : List LogEvent :=
  match findSpawn s pid with
  | none => []
  | some sp =>
    if sp.gen ≠ s.logProcessId then []
    else (nonBlankLines data).map (LogEvent.log sp.caller)

/-- Arrival of a stderr data chunk: discarded when stale; the console
spawn of an emulated target forwards non-blank lines tagged to the log
callback, every other spawn passes the chunk whole to the error
callback. -/
def deliverStderr (s : LogState) (pid : Nat) (data : String) : List LogEvent :=
  match findSpawn s pid with
  | none => []
  | some sp =>
    if sp.gen ≠ s.logProcessId then []
    else
      match sp.handler with
      | .console => (nonBlankLines data).map (fun l => LogEvent.log sp.caller ("[stderr] " ++ l))
      | .generic => [LogEvent.err sp.caller data]

end LogSession

namespace DeviceSession

/-! ## Device session primitives (devices/manager.ts)

Boot and terminate are modelled by the outcome of the underlying
command, passed in as a value.
-/

/-- The exact backend message produced when the target is already
booted. -/
def alreadyBootedMsg : String := "Unable to boot device in current state: Booted"

/-- Booting a target: an error whose message contains the
already-booted text is suppressed, any other error propagates. -/
def bootSimulator (execResult : Except String Unit) : Except String Unit :=
  match execResult with
  | .ok _ => .ok ()
  | .error msg =>
    if containsSub alreadyBootedMsg.toList msg.toList then .ok () else .error msg

/-- Terminating an app: for an emulated target the terminate command
runs and every error it throws is swallowed; for a physical target no
command runs at all. Returns the commands issued and the outcome. -/
def terminateApp (dt : DeviceManager.DeviceType) (_execResult : Except String Unit) :
    List String × Except String Unit :=
  match dt with
  | .simulator => (["xcrun simctl terminate"], .ok ())
  | .device => ([], .ok ())

end DeviceSession

/-! ## Helper lemmas for the sort policy -/

namespace SimulatorList

/-- The relative order the catalog promises between a booted and a
non-booted entry: a non-booted entry never precedes a booted one. -/
def bootedBefore (a b : Simulator) : Prop :=
  ¬(a.state ≠ "Booted" ∧ b.state = "Booted")

theorem compareSimulators_booted_lt (a b : Simulator)
    (ha : a.state = "Booted") (hb : b.state ≠ "Booted") :
    compareSimulators a b = -1 := by
  unfold compareSimulators
  rw [if_pos ⟨ha, hb⟩]

theorem compareSimulators_nonbooted_gt (a b : Simulator)
    (ha : a.state ≠ "Booted") (hb : b.state = "Booted") :
    compareSimulators a b = 1 := by
  unfold compareSimulators
  rw [if_neg (fun h => ha h.1), if_pos ⟨ha, hb⟩]

theorem pairwise_bootedBefore_orderedInsert (a : Simulator) (L : List Simulator)
    (h : L.Pairwise bootedBefore) :
    (List.orderedInsert simLE a L).Pairwise bootedBefore := by
  induction L with
  | nil => simp [List.orderedInsert, bootedBefore]
  | cons b L ih =>
    rw [List.orderedInsert]
    by_cases hab : simLE a b
    · rw [if_pos hab]
      refine List.Pairwise.cons ?_ h
      intro y hy hbad
      obtain ⟨hna, hyB⟩ := hbad
      have hbB : b.state = "Booted" := by
        rcases List.mem_cons.mp hy with hyb | hyL
        · rwa [hyb] at hyB
        · by_contra hbn
          exact (List.rel_of_pairwise_cons h hyL) ⟨hbn, hyB⟩
      have hc := compareSimulators_nonbooted_gt a b hna hbB
      rw [simLE, hc] at hab
      exact absurd hab (by decide)
    · rw [if_neg hab]
      refine List.Pairwise.cons ?_ (ih (List.Pairwise.of_cons h))
      intro y hy
      rcases (List.mem_orderedInsert simLE).mp hy with hya | hyL
      · subst hya
        intro hbad
        obtain ⟨hnb, hyB⟩ := hbad
        have : compareSimulators y b = -1 := compareSimulators_booted_lt y b hyB hnb
        exact hab (by rw [simLE, this]; decide)
      · exact List.rel_of_pairwise_cons h hyL

theorem pairwise_bootedBefore_sortSimulators (l : List Simulator) :
    (sortSimulators l).Pairwise bootedBefore := by
  unfold sortSimulators
  induction l with
  | nil => simp [List.insertionSort]
  | cons a l ih =>
    rw [List.insertionSort]
    exact pairwise_bootedBefore_orderedInsert a _ ih

end SimulatorList

/-! ## Concrete fixtures -/

/-- Emulated targets with OS versions 17.0, 16.4 and 17.2, one per
runtime, all available and shut down; both physical backends fail. -/
def c2Data : DeviceManager.SimctlOutput :=
  { devices := [
      ("com.apple.CoreSimulator.SimRuntime.iOS-17-0",
        [{ udid := "U1", name := "Sim A", state := "Shutdown", isAvailable := true }]),
      ("com.apple.CoreSimulator.SimRuntime.iOS-16-4",
        [{ udid := "U2", name := "Sim B", state := "Shutdown", isAvailable := true }]),
      ("com.apple.CoreSimulator.SimRuntime.iOS-17-2",
        [{ udid := "U3", name := "Sim C", state := "Shutdown", isAvailable := true }]) ] }

/-- The catalog inputs for the 17.0, 16.4, 17.2 scenario. -/
def c2Input : DeviceManager.CatalogInputs :=
  { simctl := .ok c2Data, devicectl := .error (), xctrace := .error () }

/-!
Claim C1. startLogStream increments the generation on every call; after
two successive process-output starts the first generation is strictly
below the second, and data arriving for the first spawn is discarded.
-/

/-- Claim C1: every stream start increments the generation counter, so
the first of two successive process-output starts has a strictly
smaller generation than the second; stdout or stderr data arriving for
the first spawn after the second start is discarded, never forwarded to
the log or error callback of any caller. -/
theorem C1_generation_supersedes_stale_stream :
    (∀ (opts : LogSession.LogStreamOptions) (s : LogSession.LogState),
      ((LogSession.startLogStream opts s).2).logProcessId = s.logProcessId + 1)
    ∧
    (∀ c1 c2 : Nat,
      ((LogSession.startLogStream
          { deviceType := .simulator, caller := c1, mode := .stdout }
          LogSession.initLogState).2).logProcessId
        < ((LogSession.startLogStream
              { deviceType := .simulator, caller := c2, mode := .stdout }
              (LogSession.startLogStream
                { deviceType := .simulator, caller := c1, mode := .stdout }
                LogSession.initLogState).2).2).logProcessId
      ∧ ∀ data : String,
          LogSession.deliverStdout
            (LogSession.startLogStream
              { deviceType := .simulator, caller := c2, mode := .stdout }
              (LogSession.startLogStream
                { deviceType := .simulator, caller := c1, mode := .stdout }
                LogSession.initLogState).2).2 0 data = []
          ∧ LogSession.deliverStderr
              (LogSession.startLogStream
                { deviceType := .simulator, caller := c2, mode := .stdout }
                (LogSession.startLogStream
                  { deviceType := .simulator, caller := c1, mode := .stdout }
                  LogSession.initLogState).2).2 0 data = []) := by
  refine ⟨fun opts s => ?_, fun c1 c2 => ⟨?_, fun data => ⟨rfl, rfl⟩⟩⟩
  · obtain ⟨dt, c, m⟩ := opts
    cases dt <;> cases m <;> rfl
  · show (1 : Nat) < 2
    decide

/-!
Claim C2. The claim attributes the booted-first, version-descending,
name-ascending sort to listAllDevices. The catalog function does not
sort: it returns the emulated targets in backend enumeration order. The
sort lives in the standalone simulator catalog module.
-/

/-- Claim C2 counterexample: listAllDevices on emulated targets with
versions 17.0, 16.4, 17.2 (none booted, physical backends empty)
returns them in backend order 17.0, 16.4, 17.2, not in the claimed
sorted order 17.2, 17.0, 16.4. -/
theorem C2_counterexample_listAllDevices_not_sorted :
    (DeviceManager.listAllDevices c2Input).map (·.osVersion) = ["17.0", "16.4", "17.2"]
    ∧ (DeviceManager.listAllDevices c2Input).map (·.osVersion) ≠ ["17.2", "17.0", "16.4"]
    ∧ (DeviceManager.listAllDevices c2Input).all (fun d => d.state != "Booted") = true := by
  decide

/-- Claim C2 amended: listAllDevices returns emulated targets in
backend enumeration order without re-sorting; the booted-first,
version-descending, name-ascending policy is implemented by the
standalone simulator catalog, whose sort places booted entries before
all non-booted ones on every input and orders the 17.0, 16.4, 17.2
targets (none booted) as 17.2, 17.0, 16.4. -/
theorem C2_amended_sort_in_standalone_catalog :
    (DeviceManager.listAllDevices c2Input).map (·.osVersion) = ["17.0", "16.4", "17.2"]
    ∧ (∀ l : List SimulatorList.Simulator,
        (SimulatorList.sortSimulators l).Pairwise SimulatorList.bootedBefore)
    ∧ (SimulatorList.listSimulatorsOk c2Data).map (·.runtime)
        = ["iOS 17.2", "iOS 17.0", "iOS 16.4"] := by
  refine ⟨by decide, SimulatorList.pairwise_bootedBefore_sortSimulators, by decide⟩

/-!
Claim C3. Streamed stdout is scanned for line-start phase keywords;
each transition to a new phase notifies once, repeats are suppressed.
-/

/-- Claim C3: a chunk whose first line-start phase keyword differs from
the last phase notifies exactly once with that keyword and an ellipsis;
a chunk repeating the last phase, or matching no phase, notifies
nothing; keywords match at line start only; the chunks Compile X,
Compile Y, Link Z produce exactly the two notifications Compile and
Link with no duplicate for the second Compile line. -/
theorem C3_phase_transitions_notify_once :
    (∀ lastPhase chunk p, XcodeBuild.firstPhaseMatch chunk = some p → p ≠ lastPhase →
      XcodeBuild.phaseStep lastPhase chunk = (p, [String.mk p ++ "..."]))
    ∧ (∀ lastPhase chunk, XcodeBuild.firstPhaseMatch chunk = some lastPhase →
      XcodeBuild.phaseStep lastPhase chunk = (lastPhase, []))
    ∧ (∀ lastPhase chunk, XcodeBuild.firstPhaseMatch chunk = none →
      XcodeBuild.phaseStep lastPhase chunk = (lastPhase, []))
    ∧ XcodeBuild.firstPhaseMatch "Compile X".toList = some "Compile".toList
    ∧ XcodeBuild.firstPhaseMatch "  Compile X".toList = none
    ∧ XcodeBuild.phaseNotifications [] ["Compile X".toList, "Compile Y".toList, "Link Z".toList]
        = ["Compile...", "Link..."] := by
  refine ⟨?_, ?_, ?_, by decide, by decide, by decide⟩
  · intro lastPhase chunk p hm hne
    simp [XcodeBuild.phaseStep, hm, hne]
  · intro lastPhase chunk hm
    simp [XcodeBuild.phaseStep, hm]
  · intro lastPhase chunk hm
    simp [XcodeBuild.phaseStep, hm]

/-- Witness for claim C3: the general conjuncts applied at concrete
chunks, discharging the hypotheses by evaluation. -/
theorem C3_phase_transitions_notify_once_witness :
    XcodeBuild.phaseStep "Compile".toList "Link A".toList
        = ("Link".toList, ["Link..."])
    ∧ XcodeBuild.phaseStep "Compile".toList "Compile B".toList
        = ("Compile".toList, [])
    ∧ XcodeBuild.phaseStep "Compile".toList "ld: warning".toList
        = ("Compile".toList, []) :=
  ⟨C3_phase_transitions_notify_once.1 "Compile".toList "Link A".toList "Link".toList
      (by decide) (by decide),
   C3_phase_transitions_notify_once.2.1 "Compile".toList "Compile B".toList (by decide),
   C3_phase_transitions_notify_once.2.2.1 "Compile".toList "ld: warning".toList (by decide)⟩

/-!
Claim C4. On exit code zero the artifact path resolves by priority:
stdout pattern match, then the configured derived-data override, then a
prefix-matching directory of the default derived-data root; with no
resolution the result is still successful with no path.
-/

/-- The build options of the concrete successful-build scenario. -/
def c4Opts : XcodeBuild.BuildOptions :=
  { project := { path := "/proj/MyApp.xcodeproj", name := "MyApp", type := .project }
    scheme := "MyScheme"
    deviceType := .simulator
    derivedDataPath := none
    clean := false }

/-- A filesystem in which the default derived-data root cannot be
read. -/
def c4Env : XcodeBuild.FsEnv :=
  { home := "/Users/dev", derivedDataDirs := .error () }

/-- Accumulated stdout of the concrete successful build, containing a
line with the artifact path. -/
def c4Out : String :=
  "CodeSign /DD/MyApp-abc/Build/Products/Debug-iphonesimulator/MyScheme.app\n** BUILD SUCCEEDED **\n"

/-- Claim C4: on exit code zero the result is successful and carries
the resolved path; the stdout pattern match wins when present and the
result is exactly the matched string; otherwise the configured
override is used; otherwise a prefix-matching directory of the default
root; when the root cannot be read, or no directory matches, the
result is still successful with no path. The concrete stdout
containing a Debug-iphonesimulator/MyScheme.app line resolves to
exactly that path. -/
theorem C4_appPath_resolution_priority :
    (∀ opts env out errOut dur,
      (XcodeBuild.buildOnClose opts env 0 out errOut dur).success = true
      ∧ (XcodeBuild.buildOnClose opts env 0 out errOut dur).appPath
          = XcodeBuild.resolveAppPath opts env out)
    ∧ (∀ opts env out p,
        XcodeBuild.findAppPath
          (XcodeBuild.appPathSuffix (XcodeBuild.productDir opts.deviceType) opts.scheme)
          out.toList = some p →
        XcodeBuild.resolveAppPath opts env out = some (String.mk p))
    ∧ (∀ opts env out d,
        XcodeBuild.findAppPath
          (XcodeBuild.appPathSuffix (XcodeBuild.productDir opts.deviceType) opts.scheme)
          out.toList = none →
        opts.derivedDataPath = some d →
        XcodeBuild.resolveAppPath opts env out
          = some (d ++ "/Build/Products/" ++ XcodeBuild.productDir opts.deviceType
              ++ "/" ++ opts.scheme ++ ".app"))
    ∧ (∀ opts env out dirs projDir,
        XcodeBuild.findAppPath
          (XcodeBuild.appPathSuffix (XcodeBuild.productDir opts.deviceType) opts.scheme)
          out.toList = none →
        opts.derivedDataPath = none →
        env.derivedDataDirs = .ok dirs →
        dirs.find? (fun d =>
          opts.scheme.toList.isPrefixOf d.toList ||
          opts.project.name.toList.isPrefixOf d.toList) = some projDir →
        XcodeBuild.resolveAppPath opts env out
          = some (XcodeBuild.defaultDerivedDataRoot env ++ "/" ++ projDir
              ++ "/Build/Products/" ++ XcodeBuild.productDir opts.deviceType
              ++ "/" ++ opts.scheme ++ ".app"))
    ∧ (∀ opts env out errOut dur,
        XcodeBuild.findAppPath
          (XcodeBuild.appPathSuffix (XcodeBuild.productDir opts.deviceType) opts.scheme)
          out.toList = none →
        opts.derivedDataPath = none →
        env.derivedDataDirs = .error () →
        XcodeBuild.resolveAppPath opts env out = none
        ∧ (XcodeBuild.buildOnClose opts env 0 out errOut dur).success = true)
    ∧ (∀ opts env out errOut dur dirs,
        XcodeBuild.findAppPath
          (XcodeBuild.appPathSuffix (XcodeBuild.productDir opts.deviceType) opts.scheme)
          out.toList = none →
        opts.derivedDataPath = none →
        env.derivedDataDirs = .ok dirs →
        dirs.find? (fun d =>
          opts.scheme.toList.isPrefixOf d.toList ||
          opts.project.name.toList.isPrefixOf d.toList) = none →
        XcodeBuild.resolveAppPath opts env out = none
        ∧ (XcodeBuild.buildOnClose opts env 0 out errOut dur).success = true)
    ∧ (XcodeBuild.buildOnClose c4Opts c4Env 0 c4Out "" 12).appPath
        = some "/DD/MyApp-abc/Build/Products/Debug-iphonesimulator/MyScheme.app"
    ∧ (XcodeBuild.buildOnClose c4Opts c4Env 0 c4Out "" 12).success = true := by
  refine ⟨?_, ?_, ?_, ?_, ?_, ?_, by decide, by decide⟩
  · intro opts env out errOut dur
    exact ⟨rfl, rfl⟩
  · intro opts env out p hm
    simp only [XcodeBuild.resolveAppPath]
    rw [hm]
  · intro opts env out d hm hd
    simp only [XcodeBuild.resolveAppPath]
    rw [hm, hd]
  · intro opts env out dirs projDir hm hd hdirs hfind
    simp only [XcodeBuild.resolveAppPath]
    rw [hm, hd, hdirs]
    simp only [hfind]
  · intro opts env out errOut dur hm hd hdirs
    refine ⟨?_, rfl⟩
    simp only [XcodeBuild.resolveAppPath]
    rw [hm, hd, hdirs]
  · intro opts env out errOut dur dirs hm hd hdirs hfind
    refine ⟨?_, rfl⟩
    simp only [XcodeBuild.resolveAppPath]
    rw [hm, hd, hdirs]
    simp only [hfind]

/-- Witness for claim C4: the priority conjuncts applied at concrete
inputs, discharging every hypothesis by evaluation. -/
theorem C4_appPath_resolution_priority_witness :
    XcodeBuild.resolveAppPath c4Opts c4Env c4Out
        = some "/DD/MyApp-abc/Build/Products/Debug-iphonesimulator/MyScheme.app"
    ∧ XcodeBuild.resolveAppPath
        { c4Opts with derivedDataPath := some "/proj/build" } c4Env "no match here"
        = some "/proj/build/Build/Products/Debug-iphonesimulator/MyScheme.app"
    ∧ XcodeBuild.resolveAppPath c4Opts
        { home := "/Users/dev", derivedDataDirs := .ok ["MyApp-xyz", "Other-1"] } "no match here"
        = some "/Users/dev/Library/Developer/Xcode/DerivedData/MyApp-xyz/Build/Products/Debug-iphonesimulator/MyScheme.app"
    ∧ XcodeBuild.resolveAppPath c4Opts c4Env "no match here" = none :=
  ⟨C4_appPath_resolution_priority.2.1 c4Opts c4Env c4Out
      "/DD/MyApp-abc/Build/Products/Debug-iphonesimulator/MyScheme.app".toList (by decide),
   C4_appPath_resolution_priority.2.2.1
      { c4Opts with derivedDataPath := some "/proj/build" } c4Env "no match here"
      "/proj/build" (by decide) rfl,
   C4_appPath_resolution_priority.2.2.2.1 c4Opts
      { home := "/Users/dev", derivedDataDirs := .ok ["MyApp-xyz", "Other-1"] }
      "no match here" ["MyApp-xyz", "Other-1"] "MyApp-xyz" (by decide) rfl rfl (by decide),
   (C4_appPath_resolution_priority.2.2.2.2.1 c4Opts c4Env "no match here" "" 0
      (by decide) rfl rfl).1⟩

/-!
Claim C5. The claim states that trailing output arriving after
stopStream, with no intervening startStream, is discarded by the
stale-generation check. stopLogStream clears the handles but leaves the
generation counter untouched, so such output still passes the
generation check and is forwarded.
-/

/-- The session after one process-output start on an emulated target
(caller 7). -/
def c5Started : LogSession.LogState :=
  (LogSession.startLogStream
    { deviceType := .simulator, caller := 7, mode := .stdout }
    LogSession.initLogState).2

/-- The session after the stream is stopped again. -/
def c5Stopped : LogSession.LogState :=
  (LogSession.stopLogStream c5Started).2

/-- Claim C5 counterexample: after stopStream terminates the active
stream and clears its handles, trailing stdout from the terminated
subprocess is still forwarded to the log callback of caller 7 — the
generation is unchanged, so the stale-generation check does not
discard it. -/
theorem C5_counterexample_trailing_output_forwarded :
    (LogSession.stopLogStream c5Started).1 = true
    ∧ LogSession.deliverStdout c5Stopped 0 "trailing output\n"
        = [LogSession.LogEvent.log 7 "trailing output"]
    ∧ LogSession.deliverStdout c5Stopped 0 "trailing output\n" ≠ [] := by
  decide

/-- Claim C5 amended: stopStream clears both handles but does not
advance the generation counter, so trailing output from the terminated
subprocess arriving with no intervening startStream is still forwarded
to the stopped stream callbacks; it is discarded only once a
subsequent startStream advances the generation. -/
theorem C5_amended_stale_check_covers_replacement_only :
    (∀ s : LogSession.LogState,
      (LogSession.stopLogStream s).2.logProcessId = s.logProcessId
      ∧ (LogSession.stopLogStream s).2.stdoutLogProcess = none
      ∧ (LogSession.stopLogStream s).2.logProcess = none)
    ∧ LogSession.deliverStdout c5Stopped 0 "late line\n"
        = [LogSession.LogEvent.log 7 "late line"]
    ∧ LogSession.deliverStderr c5Stopped 0 "late err\n"
        = [LogSession.LogEvent.log 7 "[stderr] late err"]
    ∧ (∀ data : String,
        LogSession.deliverStdout
          (LogSession.startLogStream
            { deviceType := .simulator, caller := 8, mode := .stdout } c5Stopped).2 0 data = []
        ∧ LogSession.deliverStderr
            (LogSession.startLogStream
              { deviceType := .simulator, caller := 8, mode := .stdout } c5Stopped).2 0 data = []) := by
  exact ⟨fun s => ⟨rfl, rfl, rfl⟩, by decide, by decide, fun data => ⟨rfl, rfl⟩⟩

/-!
Claim C6. A failing backend query degrades to an empty sequence for
that backend only; the catalog call still returns the other backend.
-/

/-- A wired physical device as the modern backend reports it. -/
def c6Dctl : DeviceManager.DctlOutput :=
  { devices := [{ identifier := "X1"
                  transportType := some "wired"
                  hwUdid := some "UD-1"
                  deviceName := some "My iPhone"
                  osVersionNumber := some "17.1" }] }

/-- Claim C6: a failed simulator query leaves exactly the physical
targets, a failed pair of physical queries leaves exactly the emulated
targets, each failing backend degrades to the empty list, and a
catalog call with one failing backend still returns the other backend
targets. -/
theorem C6_backend_failure_degrades_to_empty :
    (∀ (u : Unit) dc xt,
      DeviceManager.listAllDevices { simctl := .error u, devicectl := dc, xctrace := xt }
        = DeviceManager.listRealDevices dc xt)
    ∧ (∀ sc (u1 u2 : Unit),
      DeviceManager.listAllDevices { simctl := sc, devicectl := .error u1, xctrace := .error u2 }
        = DeviceManager.listSimulators sc)
    ∧ (∀ u : Unit, DeviceManager.listSimulators (.error u) = [])
    ∧ (∀ u1 u2 : Unit, DeviceManager.listRealDevices (.error u1) (.error u2) = [])
    ∧ DeviceManager.listAllDevices
        { simctl := .error (), devicectl := .ok c6Dctl, xctrace := .error () }
        = [{ udid := "UD-1", name := "My iPhone", type := .device, state := "Connected",
             platform := "iOS", osVersion := "17.1", isAvailable := true }]
    ∧ DeviceManager.listAllDevices
        { simctl := .ok c2Data, devicectl := .error (), xctrace := .error () }
        = DeviceManager.listSimulatorsOk c2Data := by
  refine ⟨fun u dc xt => rfl, fun sc u1 u2 => ?_, fun u => rfl, fun u1 u2 => rfl,
    by decide, by decide⟩
  simp [DeviceManager.listAllDevices, DeviceManager.listRealDevices,
    DeviceManager.listDevicesWithDevicectl, DeviceManager.listDevicesWithInstruments]

/-!
Claim C7. On nonzero exit the result fails with the first extracted
diagnostic from stderr, or the generic message when none matches.
-/

/-- Claim C7: on nonzero exit the result is a failure; its error is
the first match of the diagnostic pattern in the accumulated stderr,
or the generic message when no line matches; stderr containing the
signing diagnostic yields exactly that message. -/
theorem C7_error_extraction_on_nonzero_exit :
    (∀ opts env out errOut dur (code : Int), code ≠ 0 →
      (XcodeBuild.buildOnClose opts env code out errOut dur).success = false
      ∧ (XcodeBuild.buildOnClose opts env code out errOut dur).appPath = none)
    ∧ (∀ opts env out errOut dur (code : Int) m, code ≠ 0 →
      XcodeBuild.findErrorMessage errOut.toList = some m →
      (XcodeBuild.buildOnClose opts env code out errOut dur).error = some (String.mk m))
    ∧ (∀ opts env out errOut dur (code : Int), code ≠ 0 →
      XcodeBuild.findErrorMessage errOut.toList = none →
      (XcodeBuild.buildOnClose opts env code out errOut dur).error = some "Build failed")
    ∧ (∀ opts env out dur,
      (XcodeBuild.buildOnClose opts env 1 out
        "error: Signing for \"MyApp\" requires a development team.\n" dur).error
        = some "Signing for \"MyApp\" requires a development team.") := by
  refine ⟨?_, ?_, ?_, fun opts env out dur => rfl⟩
  · intro opts env out errOut dur code hc
    simp [XcodeBuild.buildOnClose, if_neg hc]
  · intro opts env out errOut dur code m hc hm
    simp only [XcodeBuild.buildOnClose, if_neg hc]
    rw [hm]
  · intro opts env out errOut dur code hc hm
    simp only [XcodeBuild.buildOnClose, if_neg hc]
    rw [hm]

/-- Witness for claim C7: the failure conjuncts applied at exit code 2
with a matching and a non-matching stderr text. -/
theorem C7_error_extraction_on_nonzero_exit_witness :
    (XcodeBuild.buildOnClose c4Opts c4Env 2 "" "ld: error: undefined symbol\n" 3).success = false
    ∧ (XcodeBuild.buildOnClose c4Opts c4Env 2 "" "ld: error: undefined symbol\n" 3).error
        = some "undefined symbol"
    ∧ (XcodeBuild.buildOnClose c4Opts c4Env 2 "" "warnings only\n" 3).error
        = some "Build failed" :=
  ⟨(C7_error_extraction_on_nonzero_exit.1 c4Opts c4Env "" "ld: error: undefined symbol\n" 3 2
      (by decide)).1,
   C7_error_extraction_on_nonzero_exit.2.1 c4Opts c4Env "" "ld: error: undefined symbol\n" 3 2
      "undefined symbol".toList (by decide) (by decide),
   C7_error_extraction_on_nonzero_exit.2.2.1 c4Opts c4Env "" "warnings only\n" 3 2
      (by decide) (by decide)⟩

/-!
Claim C8. Booting a target that is already booted completes without
raising; only the specific already-booted message is suppressed.
-/

/-- Claim C8: a successful boot stays successful; a boot error whose
message contains the already-booted backend text is suppressed into
success; any other boot error propagates unchanged. -/
theorem C8_already_booted_suppressed :
    DeviceSession.bootSimulator (.ok ()) = .ok ()
    ∧ (∀ msg, containsSub DeviceSession.alreadyBootedMsg.toList msg.toList = true →
        DeviceSession.bootSimulator (.error msg) = .ok ())
    ∧ (∀ msg, containsSub DeviceSession.alreadyBootedMsg.toList msg.toList = false →
        DeviceSession.bootSimulator (.error msg) = .error msg) := by
  refine ⟨rfl, ?_, ?_⟩
  · intro msg hm
    simp only [DeviceSession.bootSimulator]
    rw [hm]
    rfl
  · intro msg hm
    simp only [DeviceSession.bootSimulator]
    rw [hm]
    rfl

/-- Witness for claim C8: the suppression conjunct applied to the exact
backend message, the propagation conjunct to an unrelated message. -/
theorem C8_already_booted_suppressed_witness :
    DeviceSession.bootSimulator (.error DeviceSession.alreadyBootedMsg) = .ok ()
    ∧ DeviceSession.bootSimulator (.error "Invalid device: no such device")
        = .error "Invalid device: no such device" :=
  ⟨C8_already_booted_suppressed.2.1 DeviceSession.alreadyBootedMsg (by decide),
   C8_already_booted_suppressed.2.2 "Invalid device: no such device" (by decide)⟩

/-!
Claim C9. Stdout of every log spawn is split into lines, blanks
suppressed, non-blanks forwarded to the log callback. The claim also
states that stderr of the process-output spawn is tagged and forwarded
to the log callback, never to the error callback. That holds for the
console spawn of an emulated target, but the process-output spawn of a
physical target is wired to the generic handlers, which pass stderr
chunks to the error callback whole.
-/

/-- The session after one process-output start on a physical target
(caller 3). -/
def c9Device : LogSession.LogState :=
  (LogSession.startLogStream
    { deviceType := .device, caller := 3, mode := .stdout }
    LogSession.initLogState).2

/-- The session after one process-output start on an emulated target
(caller 5). -/
def c9Sim : LogSession.LogState :=
  (LogSession.startLogStream
    { deviceType := .simulator, caller := 5, mode := .stdout }
    LogSession.initLogState).2

/-- Claim C9 counterexample: the process-output spawn of a physical
target delivers stderr text to the error callback as a whole chunk,
not tagged to the log callback as the claim states for every
process-output spawn. -/
theorem C9_counterexample_device_stderr_to_onError :
    LogSession.deliverStderr c9Device 0 "boom\n" = [LogSession.LogEvent.err 3 "boom\n"]
    ∧ LogSession.deliverStderr c9Device 0 "boom\n"
        ≠ [LogSession.LogEvent.log 3 "[stderr] boom"] := by
  decide

/-- Claim C9 amended: stdout of every current-generation spawn is split
into lines with blank lines suppressed and non-blank lines forwarded to
the log callback; stderr of the emulated-target process-output spawn is
split the same way and forwarded to the log callback tagged with a
stderr marker; stderr of every generically wired spawn — the
physical-target process-output spawn and the system-log spawns — is
passed to the error callback as one whole chunk. -/
theorem C9_amended_output_line_routing :
    (∀ (s : LogSession.LogState) (pid : Nat) (data : String) (sp : LogSession.SpawnRec),
      LogSession.findSpawn s pid = some sp → sp.gen = s.logProcessId →
      LogSession.deliverStdout s pid data
        = (LogSession.nonBlankLines data).map (LogSession.LogEvent.log sp.caller))
    ∧ (∀ (s : LogSession.LogState) (pid : Nat) (data : String) (sp : LogSession.SpawnRec),
      LogSession.findSpawn s pid = some sp → sp.gen = s.logProcessId →
      sp.handler = .console →
      LogSession.deliverStderr s pid data
        = (LogSession.nonBlankLines data).map
            (fun l => LogSession.LogEvent.log sp.caller ("[stderr] " ++ l)))
    ∧ (∀ (s : LogSession.LogState) (pid : Nat) (data : String) (sp : LogSession.SpawnRec),
      LogSession.findSpawn s pid = some sp → sp.gen = s.logProcessId →
      sp.handler = .generic →
      LogSession.deliverStderr s pid data = [LogSession.LogEvent.err sp.caller data])
    ∧ (∀ c : Nat,
      ((LogSession.startLogStream
          { deviceType := .simulator, caller := c, mode := .stdout }
          LogSession.initLogState).2).spawns
        = [{ pid := 0, gen := 1, caller := c, handler := .console, mode := .stdout }])
    ∧ (∀ c : Nat,
      ((LogSession.startLogStream
          { deviceType := .device, caller := c, mode := .stdout }
          LogSession.initLogState).2).spawns
        = [{ pid := 0, gen := 1, caller := c, handler := .generic, mode := .stdout }])
    ∧ LogSession.nonBlankLines "hello\n\n world \n" = ["hello", " world "]
    ∧ LogSession.deliverStdout c9Sim 0 "hello\n\n world \n"
        = [LogSession.LogEvent.log 5 "hello", LogSession.LogEvent.log 5 " world "]
    ∧ LogSession.deliverStderr c9Sim 0 "oops\n" = [LogSession.LogEvent.log 5 "[stderr] oops"] := by
  refine ⟨?_, ?_, ?_, fun c => rfl, fun c => rfl, by decide, by decide, by decide⟩
  · intro s pid data sp hf hg
    simp [LogSession.deliverStdout, hf, hg]
  · intro s pid data sp hf hg hh
    simp [LogSession.deliverStderr, hf, hg, hh]
  · intro s pid data sp hf hg hh
    simp [LogSession.deliverStderr, hf, hg, hh]

/-- Witness for claim C9: the routing conjuncts applied to the
concrete emulated-target and physical-target sessions, hypotheses
discharged by evaluation. -/
theorem C9_amended_output_line_routing_witness :
    LogSession.deliverStdout c9Sim 0 "a\nb\n"
      = (LogSession.nonBlankLines "a\nb\n").map (LogSession.LogEvent.log 5)
    ∧ LogSession.deliverStderr c9Sim 0 "x\n"
      = (LogSession.nonBlankLines "x\n").map
          (fun l => LogSession.LogEvent.log 5 ("[stderr] " ++ l))
    ∧ LogSession.deliverStderr c9Device 0 "y\n" = [LogSession.LogEvent.err 3 "y\n"] :=
  ⟨C9_amended_output_line_routing.1 c9Sim 0 "a\nb\n"
      { pid := 0, gen := 1, caller := 5, handler := .console, mode := .stdout } rfl rfl,
   C9_amended_output_line_routing.2.1 c9Sim 0 "x\n"
      { pid := 0, gen := 1, caller := 5, handler := .console, mode := .stdout } rfl rfl rfl,
   C9_amended_output_line_routing.2.2.1 c9Device 0 "y\n"
      { pid := 0, gen := 1, caller := 3, handler := .generic, mode := .stdout } rfl rfl rfl⟩

/-!
Claim C10. terminateApp never raises: every error of the emulated
terminate primitive is swallowed, and for physical targets no
termination command runs at all.
-/

/-- Claim C10: terminateApp returns successfully for every target kind
and every outcome of the underlying command; for a physical target it
issues no command, for an emulated target it issues exactly the
terminate command. -/
theorem C10_terminate_never_raises :
    (∀ (dt : DeviceManager.DeviceType) (r : Except String Unit),
      (DeviceSession.terminateApp dt r).2 = .ok ())
    ∧ (∀ r : Except String Unit, (DeviceSession.terminateApp .device r).1 = [])
    ∧ (∀ r : Except String Unit,
      (DeviceSession.terminateApp .simulator r).1 = ["xcrun simctl terminate"]) := by
  refine ⟨?_, fun r => rfl, fun r => rfl⟩
  intro dt r
  cases dt <;> rfl
